import Mathlib

/-!
Shallow embedding of `plugin.py` (example facts-collector plugin) and
verification of the frozen claims about it.
-/

/-- JSON values, the structured data crossing the plugin boundary.
Numbers are modelled as rationals. -/
inductive Json where
  | null : Json
  | bool : Bool → Json
  | num : Rat → Json
  | str : String → Json
  | arr : List Json → Json
  | obj : List (String × Json) → Json
deriving Repr

mutual

def Json.beq : Json → Json → Bool
  | .null, .null => true
  | .bool a, .bool b => a == b
  | .num a, .num b => a == b
  | .str a, .str b => a == b
  | .arr a, .arr b => Json.beqList a b
  | .obj a, .obj b => Json.beqFields a b
  | _, _ => false

def Json.beqList : List Json → List Json → Bool
  | [], [] => true
  | a :: as, b :: bs => Json.beq a b && Json.beqList as bs
  | _, _ => false

def Json.beqFields : List (String × Json) → List (String × Json) → Bool
  | [], [] => true
  | (k1, v1) :: as, (k2, v2) :: bs => k1 == k2 && Json.beq v1 v2 && Json.beqFields as bs
  | _, _ => false

end

mutual

def Json.beq_refl : (a : Json) → Json.beq a a = true
  | .null => rfl
  | .bool b => by simp [Json.beq]
  | .num n => by simp [Json.beq]
  | .str s => by simp [Json.beq]
  | .arr xs => by simp [Json.beq]; exact Json.beqList_refl xs
  | .obj fs => by simp [Json.beq]; exact Json.beqFields_refl fs

def Json.beqList_refl : (xs : List Json) → Json.beqList xs xs = true
  | [] => rfl
  | a :: as => by
      simp [Json.beqList]
      exact ⟨Json.beq_refl a, Json.beqList_refl as⟩

def Json.beqFields_refl : (fs : List (String × Json)) → Json.beqFields fs fs = true
  | [] => rfl
  | (k, v) :: as => by
      simp [Json.beqFields]
      exact ⟨Json.beq_refl v, Json.beqFields_refl as⟩

end

mutual

def Json.eq_of_beq : (a b : Json) → Json.beq a b = true → a = b
  | .null, .null, _ => rfl
  | .bool a, .bool b, h => by simp [Json.beq] at h; rw [h]
  | .num a, .num b, h => by simp [Json.beq] at h; rw [h]
  | .str a, .str b, h => by simp [Json.beq] at h; rw [h]
  | .arr a, .arr b, h => congrArg Json.arr (Json.eqList_of_beqList a b h)
  | .obj a, .obj b, h => congrArg Json.obj (Json.eqFields_of_beqFields a b h)
  | .null, .bool _, h => by simp [Json.beq] at h
  | .null, .num _, h => by simp [Json.beq] at h
  | .null, .str _, h => by simp [Json.beq] at h
  | .null, .arr _, h => by simp [Json.beq] at h
  | .null, .obj _, h => by simp [Json.beq] at h
  | .bool _, .null, h => by simp [Json.beq] at h
  | .bool _, .num _, h => by simp [Json.beq] at h
  | .bool _, .str _, h => by simp [Json.beq] at h
  | .bool _, .arr _, h => by simp [Json.beq] at h
  | .bool _, .obj _, h => by simp [Json.beq] at h
  | .num _, .null, h => by simp [Json.beq] at h
  | .num _, .bool _, h => by simp [Json.beq] at h
  | .num _, .str _, h => by simp [Json.beq] at h
  | .num _, .arr _, h => by simp [Json.beq] at h
  | .num _, .obj _, h => by simp [Json.beq] at h
  | .str _, .null, h => by simp [Json.beq] at h
  | .str _, .bool _, h => by simp [Json.beq] at h
  | .str _, .num _, h => by simp [Json.beq] at h
  | .str _, .arr _, h => by simp [Json.beq] at h
  | .str _, .obj _, h => by simp [Json.beq] at h
  | .arr _, .null, h => by simp [Json.beq] at h
  | .arr _, .bool _, h => by simp [Json.beq] at h
  | .arr _, .num _, h => by simp [Json.beq] at h
  | .arr _, .str _, h => by simp [Json.beq] at h
  | .arr _, .obj _, h => by simp [Json.beq] at h
  | .obj _, .null, h => by simp [Json.beq] at h
  | .obj _, .bool _, h => by simp [Json.beq] at h
  | .obj _, .num _, h => by simp [Json.beq] at h
  | .obj _, .str _, h => by simp [Json.beq] at h
  | .obj _, .arr _, h => by simp [Json.beq] at h

def Json.eqList_of_beqList : (a b : List Json) → Json.beqList a b = true → a = b
  | [], [], _ => rfl
  | a :: as, b :: bs, h => by
      simp [Json.beqList] at h
      rw [Json.eq_of_beq a b h.1, Json.eqList_of_beqList as bs h.2]
  | [], _ :: _, h => by simp [Json.beqList] at h
  | _ :: _, [], h => by simp [Json.beqList] at h

def Json.eqFields_of_beqFields :
    (a b : List (String × Json)) → Json.beqFields a b = true → a = b
  | [], [], _ => rfl
  | (k1, v1) :: as, (k2, v2) :: bs, h => by
      simp [Json.beqFields] at h
      rw [h.1.1, Json.eq_of_beq v1 v2 h.1.2, Json.eqFields_of_beqFields as bs h.2]
  | [], _ :: _, h => by simp [Json.beqFields] at h
  | _ :: _, [], h => by simp [Json.beqFields] at h

end

instance : DecidableEq Json := fun a b =>
  decidable_of_iff (Json.beq a b = true)
    ⟨Json.eq_of_beq a b, fun h => h ▸ Json.beq_refl a⟩

example : (Json.obj [("a", .bool true)]) ≠ Json.null := by decide
example : (Json.obj [("a", .bool true)]) = Json.obj [("a", .bool true)] := by decide

/-! ## Python dict semantics over association lists

Python dicts preserve insertion order; assigning to an existing key updates
the value in place, assigning to a fresh key appends it. -/

/-- `d[k] = v` on a Python dict: update in place if the key exists (keys are
unique in every dict the plugin builds), else append. -/
def setKey : List (String × Json) → String → Json → List (String × Json)
  | [], k, v => [(k, v)]
  | (k1, v1) :: rest, k, v =>
    if k1 = k then (k, v) :: rest else (k1, v1) :: setKey rest k v

/-- Dict lookup (`d.get(k)` / `k in d`); keys are unique by construction. -/
def lookupKey : List (String × Json) → String → Option Json
  | [], _ => none
  | (k, v) :: rest, key => if k = key then some v else lookupKey rest key

/-- `k in d` for a Python dict. -/
def hasKey (d : List (String × Json)) (k : String) : Bool :=
  (lookupKey d k).isSome

/-- Python truthiness of a JSON value (`if value:`). -/
def truthy : Json → Bool
  | .null => false
  | .bool b => b
  | .num q => q ≠ 0
  | .str s => s ≠ ""
  | .arr xs => !xs.isEmpty
  | .obj fs => !fs.isEmpty

/-- `config.get(key, default)`: succeeds on a dict, raises `AttributeError`
(modelled as `.error`) when the parsed configuration is not an object. -/
def pyGet (config : Json) (key : String) (dflt : Json) : Except String Json :=
  match config with
  | .obj fs => .ok ((lookupKey fs key).getD dflt)
  | _ => .error "object has no attribute get"

/-! ## `json.loads` model

A small JSON parser over the character list of the input. String escapes and
exponent notation are not modelled (no claim depends on them); error messages
are model strings standing in for `json.JSONDecodeError` texts. -/

def skipWs : List Char → List Char
  | c :: cs => if c = ' ' ∨ c = '\t' ∨ c = '\n' ∨ c = '\r' then skipWs cs else c :: cs
  | [] => []

/-- Body of a JSON string up to the closing quote. -/
def takeStr : List Char → Option (String × List Char)
  | [] => none
  | c :: cs =>
    if c = '"' then some ("", cs)
    else
      match takeStr cs with
      | some (s, rest) => some (⟨c :: s.data⟩, rest)
      | none => none

def natOfDigits (ds : List Char) : Nat :=
  ds.foldl (fun n c => n * 10 + (c.toNat - '0'.toNat)) 0

mutual

def parseVal (fuel : Nat) (cs : List Char) : Except String (Json × List Char) :=
  match fuel with
  | 0 => .error "Expecting value"
  | fuel + 1 =>
    match skipWs cs with
    | [] => .error "Expecting value"
    | 'n' :: 'u' :: 'l' :: 'l' :: rest => .ok (.null, rest)
    | 't' :: 'r' :: 'u' :: 'e' :: rest => .ok (.bool true, rest)
    | 'f' :: 'a' :: 'l' :: 's' :: 'e' :: rest => .ok (.bool false, rest)
    | '"' :: rest =>
      match takeStr rest with
      | some (s, rest2) => .ok (.str s, rest2)
      | none => .error "Unterminated string"
    | '[' :: rest =>
      match skipWs rest with
      | ']' :: r2 => .ok (.arr [], r2)
      | cs2 => parseArrItems fuel cs2 []
    | '{' :: rest =>
      match skipWs rest with
      | '}' :: r2 => .ok (.obj [], r2)
      | cs2 => parseObjItems fuel cs2 []
    | c :: rest =>
      if c = '-' ∨ c.isDigit then
        let p := if c = '-' then (true, rest) else (false, c :: rest)
        let ds := p.2.span (fun ch => ch.isDigit)
        if ds.1.isEmpty then .error "Expecting value"
        else
          match ds.2 with
          | '.' :: cs3 =>
            let fr := cs3.span (fun ch => ch.isDigit)
            if fr.1.isEmpty then .error "Expecting value"
            else
              let q : Rat :=
                (natOfDigits ds.1 : Rat) + (natOfDigits fr.1 : Rat) / ((10 : Rat) ^ fr.1.length)
              .ok (.num (if p.1 then -q else q), fr.2)
          | cs3 =>
            let q : Rat := (natOfDigits ds.1 : Rat)
            .ok (.num (if p.1 then -q else q), cs3)
      else .error "Expecting value"

def parseArrItems (fuel : Nat) (cs : List Char) (acc : List Json) :
    Except String (Json × List Char) :=
  match fuel with
  | 0 => .error "Expecting value"
  | fuel + 1 =>
    match parseVal fuel cs with
    | .error e => .error e
    | .ok (v, cs2) =>
      match skipWs cs2 with
      | ']' :: rest => .ok (.arr (acc ++ [v]), rest)
      | ',' :: rest => parseArrItems fuel rest (acc ++ [v])
      | _ => .error "Expecting comma delimiter"

def parseObjItems (fuel : Nat) (cs : List Char) (acc : List (String × Json)) :
    Except String (Json × List Char) :=
  match fuel with
  | 0 => .error "Expecting value"
  | fuel + 1 =>
    match skipWs cs with
    | '"' :: rest =>
      match takeStr rest with
      | none => .error "Unterminated string"
      | some (key, cs2) =>
        match skipWs cs2 with
        | ':' :: cs3 =>
          match parseVal fuel cs3 with
          | .error e => .error e
          | .ok (v, cs4) =>
            match skipWs cs4 with
            | '}' :: rest2 => .ok (.obj (setKey acc key v), rest2)
            | ',' :: rest2 => parseObjItems fuel rest2 (setKey acc key v)
            | _ => .error "Expecting comma delimiter"
        | _ => .error "Expecting colon delimiter"
    | _ => .error "Expecting property name"

end

instance {ε α : Type} [DecidableEq ε] [DecidableEq α] : DecidableEq (Except ε α) :=
  fun a b =>
  match a, b with
  | .ok x, .ok y => decidable_of_iff (x = y) (by simp)
  | .error x, .error y => decidable_of_iff (x = y) (by simp)
  | .ok _, .error _ => isFalse (by simp)
  | .error _, .ok _ => isFalse (by simp)

/-- `json.loads`: parse an entire string as a JSON value. -/
def json_loads (s : String) : Except String Json :=
  match parseVal (s.length + 8) s.data with
  | .error e => .error e
  | .ok (v, rest) =>
    match skipWs rest with
    | [] => .ok v
    | _ => .error "Extra data"

example : json_loads "\x7b\x7d" = .ok (.obj []) := by decide
example : json_loads "not valid json" = .error "Expecting value" := by decide
example :
    json_loads "\x7b\"include_cpu\": true, \"include_memory\": false\x7d" =
      .ok (.obj [("include_cpu", .bool true), ("include_memory", .bool false)]) := by
  decide

/-! ## Environment model

Results of the host-system calls the plugin makes (`platform`, `psutil`,
`socket`, `datetime`). A fallible call is an `Except String`/`Option` whose
error carries `str(e)` of the exception the call would raise. -/

/-- Result of `psutil.virtual_memory()`. -/
structure MemStats where
  total : Rat
  available : Rat
  used : Rat
  percent : Rat
deriving DecidableEq, Repr

/-- Address family of one `psutil.net_if_addrs()` entry. -/
inductive AddrFamily where
  | af_inet : AddrFamily
  | af_inet6 : AddrFamily
  | af_link : AddrFamily
  | af_other : AddrFamily
deriving DecidableEq, Repr

/-- One address record from `psutil.net_if_addrs()`. -/
structure IfAddr where
  family : AddrFamily
  address : String
deriving DecidableEq, Repr

/-- One record from `psutil.net_if_stats()`. -/
structure IfStats where
  isup : Bool
  mtu : Int
deriving DecidableEq, Repr

/-- The outcomes of every host-system call the plugin can make during one
invocation. -/
structure PyEnv where
  /-- `HAS_PSUTIL`: whether `import psutil` succeeded. -/
  has_psutil : Bool
  /-- `platform.machine()`. -/
  machine : String
  /-- `platform.python_version()`. -/
  python_version : String
  /-- `psutil.cpu_count(logical=True)`. -/
  cpu_count_logical : Except String Int
  /-- `psutil.cpu_count(logical=False)`. -/
  cpu_count_physical : Except String Int
  /-- `psutil.cpu_percent(interval=1)`. -/
  cpu_percent : Except String Rat
  /-- `psutil.virtual_memory()`. -/
  virtual_memory : Except String MemStats
  /-- `datetime.utcnow().isoformat()`. -/
  utcnow_iso : String
  /-- `hasattr(socket, 'getaddrinfo') and hasattr(socket, 'gethostname')`. -/
  has_socket_fns : Bool
  /-- `socket.gethostname()`. -/
  gethostname : Except String String
  /-- `addr[4][0]` for each entry of `socket.getaddrinfo(hostname, None)`. -/
  getaddrinfo : Except String (List String)
  /-- `psutil.net_if_addrs()` and `psutil.net_if_stats()` (one fault boundary
  covers both calls in the source). -/
  psutil_net : Except String (List (String × List IfAddr) × List (String × IfStats))
  /-- Local endpoint (`s.getsockname()[0]`) of the throwaway UDP connection to
  8.8.8.8; `none` when any step of that block raises. -/
  primary_ip : Option String
deriving Repr

/-! ## The collectors (translated from `plugin.py`) -/

/-- `round(x, 2)` on the gigabyte values (Python rounds ties to even; the
difference is immaterial to every claim, which never inspect these numbers). -/
def round2 (x : Rat) : Rat := ((round (x * 100) : Int) : Rat) / 100

/-- Bytes-to-gigabytes conversion `x / (1024**3)`. -/
def toGb (x : Rat) : Rat := x / ((1024 : Rat) ^ 3)

/-- The `cpu_info` dict built inside the `try` of the CPU branch: the three
`psutil` calls in evaluation order, failing with the first exception. -/
def cpuInfoResult (env : PyEnv) : Except String (List (String × Json)) := do
  let cores ← env.cpu_count_logical
  let physical ← env.cpu_count_physical
  let percent ← env.cpu_percent
  .ok [("architecture", .str env.machine),
       ("cores", .num (cores : Rat)),
       ("physical_cores", .num (physical : Rat)),
       ("cpu_percent", .num percent),
       ("python_version", .str env.python_version)]

/-- The `memory` dict built inside the `try` of the memory branch. -/
def memInfoResult (env : PyEnv) : Except String (List (String × Json)) := do
  let m ← env.virtual_memory
  .ok [("total_gb", .num (round2 (toGb m.total))),
       ("available_gb", .num (round2 (toGb m.available))),
       ("used_gb", .num (round2 (toGb m.used))),
       ("used_percent", .num m.percent)]

/-- The value assigned to `facts["cpu"]` (lines 83–100): real info when the
`psutil` calls succeed, an `error` sub-object when one of them raises, and the
degraded no-`psutil` info object otherwise. -/
def cpuFacts (env : PyEnv) : Json :=
  if env.has_psutil then
    match cpuInfoResult env with
    | .ok info => .obj info
    | .error e => .obj [("error", .str ("Failed to collect CPU info: " ++ e))]
  else
    .obj [("architecture", .str env.machine),
          ("cores", .str "psutil not available"),
          ("python_version", .str env.python_version)]

/-- The value assigned to `facts["memory"]` (lines 103–115). -/
def memFacts (env : PyEnv) : Json :=
  if env.has_psutil then
    match memInfoResult env with
    | .ok info => .obj info
    | .error e => .obj [("error", .str ("Failed to collect memory info: " ++ e))]
  else
    .obj [("error", .str "psutil not available for memory collection")]

/-- `execute_system_info_collector(config)` up to the final `json.dumps`:
the `facts` dict it builds.  The only uncaught fault is `config.get` on a
non-dict configuration. -/
def execute_system_info_collector_json (env : PyEnv) (config : Json) :
    Except String (List (String × Json)) := do
  let icJ ← pyGet config "include_cpu" (.bool true)
  let facts := if truthy icJ then setKey [] "cpu" (cpuFacts env) else []
  let imJ ← pyGet config "include_memory" (.bool true)
  let facts := if truthy imJ then setKey facts "memory" (memFacts env) else facts
  .ok (setKey facts "timestamp" (.str (env.utcnow_iso ++ "Z")))

/-- Assoc lookup into `net_if_stats` (`interface_name in net_if_stats`). -/
def lookupStats : List (String × IfStats) → String → Option IfStats
  | [], _ => none
  | (k, v) :: rest, key => if k = key then some v else lookupStats rest key

/-- The `interface_info` dict built for one interface: addresses gathered in
order (INET and INET6), the last `AF_LINK` address as MAC, and status/mtu from
`net_if_stats` when the interface appears there. -/
def buildInterfaceEntry (net_if_stats : List (String × IfStats)) (iname : String)
    (addrs : List IfAddr) : Json :=
  let acc := addrs.foldl (fun (st : List String × Option String) a =>
    match a.family with
    | .af_inet => (st.1 ++ [a.address], st.2)
    | .af_inet6 => (st.1 ++ [a.address], st.2)
    | .af_link => (st.1, some a.address)
    | .af_other => st) ([], none)
  let macJ : Json := match acc.2 with | some m => .str m | none => .null
  match lookupStats net_if_stats iname with
  | some st =>
    .obj [("addresses", .arr (acc.1.map Json.str)), ("mac", macJ),
          ("status", .str (if st.isup then "up" else "down")), ("mtu", .num (st.mtu : Rat))]
  | none =>
    .obj [("addresses", .arr (acc.1.map Json.str)), ("mac", macJ), ("status", .str "unknown")]

/-- Lines 132–149: hostname and hostname-IP gathering, always attempted first
(when the `socket` functions exist), each part behind its own handler.
`list(set(...))` iterates in unspecified order; `List.dedup` stands in for it
(claims about `hostname_ips` only use membership). -/
def hostnameStage (env : PyEnv) (include_loopback : Bool)
    (interfaces : List (String × Json)) : List (String × Json) :=
  if env.has_socket_fns then
    match env.gethostname with
    | .error e => setKey interfaces "hostname" (.str ("error: " ++ e))
    | .ok hostname =>
      let interfaces := setKey interfaces "hostname" (.str hostname)
      match env.getaddrinfo with
      | .error _ => setKey interfaces "hostname_ips" (.arr [])
      | .ok addrs =>
        let ips := (addrs.filter (fun ip =>
          (!(ip == "127.0.0.1") && !(ip == "::1")) || include_loopback)).dedup
        setKey interfaces "hostname_ips" (.arr (ips.map Json.str))
  else interfaces

/-- `s.startswith(pre)` on strings, via their character lists. -/
def pyStartsWith (s pre : String) : Bool := List.isPrefixOf pre.data s.data

/-- Lines 151–184: per-interface enumeration via `psutil`, skipping
loopback-named interfaces unless requested; its own fault boundary records
`psutil_error` on failure. -/
def psutilStage (env : PyEnv) (include_loopback : Bool)
    (interfaces : List (String × Json)) : List (String × Json) :=
  if env.has_psutil then
    match env.psutil_net with
    | .error e => setKey interfaces "psutil_error" (.str e)
    | .ok net =>
      net.1.foldl (fun acc p =>
        if !include_loopback && (pyStartsWith p.1 "lo" || pyStartsWith p.1 "Loopback") then acc
        else setKey acc p.1 (buildInterfaceEntry net.2 p.1 p.2)) interfaces
  else interfaces

/-- Lines 186–202: the throwaway-connection fallback, run when `psutil` is
unavailable or at most hostname info was gathered; records the
limited-information note when the connection itself fails. -/
def fallbackStage (env : PyEnv) (interfaces : List (String × Json)) :
    List (String × Json) :=
  if !env.has_psutil || interfaces.length ≤ 2 then
    match env.primary_ip with
    | some local_ip =>
      setKey interfaces "primary_interface" (.obj
        [("addresses", .arr [.str local_ip]),
         ("mac", .str "unknown (psutil not available)"),
         ("status", .str "up")])
    | none =>
      setKey interfaces "network_info"
        (.str "Limited network info available (psutil not installed)")
  else interfaces

/-- `execute_network_interfaces_collector(config)` up to the final
`json.dumps`.  Every inner operation sits behind its own handler in the
source, so the outer `try`/`except` of lines 128/206 can never fire; the only
uncaught fault is `config.get` on a non-dict configuration (line 126, before
the `try`). -/
def execute_network_interfaces_collector_json (env : PyEnv) (config : Json) :
    Except String (List (String × Json)) := do
  let ilJ ← pyGet config "include_loopback" (.bool false)
  let il := truthy ilJ
  let interfaces : List (String × Json) := []
  let interfaces := hostnameStage env il interfaces
  let interfaces := psutilStage env il interfaces
  let interfaces := fallbackStage env interfaces
  .ok interfaces

/-! ## Dispatcher and enumeration -/

/-- An `ErrorResult` document. -/
def errorDoc (msg : String) : Json := .obj [("error", .str msg)]

/-- `execute_facts_collector(name, config_json)` up to the final `json.dumps`:
parse the configuration, dispatch by name, and convert every uncaught fault
into an `ErrorResult`. -/
def execute_facts_collector_json (env : PyEnv) (name : String) (config_json : String) :
    Json :=
  match json_loads config_json with
  | .error e => errorDoc ("Collector execution failed: " ++ e)
  | .ok config =>
    if name = "python_system_info" then
      match execute_system_info_collector_json env config with
      | .ok facts => .obj facts
      | .error e => errorDoc ("Collector execution failed: " ++ e)
    else if name = "python_network_interfaces" then
      match execute_network_interfaces_collector_json env config with
      | .ok facts => .obj facts
      | .error e => errorDoc ("Collector execution failed: " ++ e)
    else
      errorDoc ("Unknown collector: " ++ name)

/-- The collector descriptors returned by `get_facts_collectors` (lines 22–54). -/
def get_facts_collectors_json : Json :=
  .arr [
    .obj [("name", .str "python_system_info"),
          ("config_schema", .obj
            [("type", .str "object"),
             ("properties", .obj
               [("include_cpu", .obj
                  [("type", .str "boolean"), ("default", .bool true),
                   ("description", .str "Include CPU information")]),
                ("include_memory", .obj
                  [("type", .str "boolean"), ("default", .bool true),
                   ("description", .str "Include memory information")])])])],
    .obj [("name", .str "python_network_interfaces"),
          ("config_schema", .obj
            [("type", .str "object"),
             ("properties", .obj
               [("include_loopback", .obj
                  [("type", .str "boolean"), ("default", .bool false),
                   ("description", .str "Include loopback interfaces")])])])]]

/-- The `name` field of each descriptor in enumeration order. -/
def collectorNames : List String :=
  match get_facts_collectors_json with
  | .arr ds => ds.filterMap (fun d =>
      match d with
      | .obj fs =>
        match lookupKey fs "name" with
        | some (.str s) => some s
        | _ => none
      | _ => none)
  | _ => []

example : collectorNames = ["python_system_info", "python_network_interfaces"] := by decide

mutual

/-- `json.dumps` (non-integer rationals are printed as fractions; numeric
formatting is incidental to every claim). -/
def Json.dumps : Json → String
  | .null => "null"
  | .bool true => "true"
  | .bool false => "false"
  | .num q => if q.den = 1 then toString q.num else toString q.num ++ "/" ++ toString q.den
  | .str s => "\"" ++ s ++ "\""
  | .arr xs => "[" ++ Json.dumpsList xs ++ "]"
  | .obj fs => "\x7b" ++ Json.dumpsFields fs ++ "\x7d"

def Json.dumpsList : List Json → String
  | [] => ""
  | [x] => Json.dumps x
  | x :: xs => Json.dumps x ++ ", " ++ Json.dumpsList xs

def Json.dumpsFields : List (String × Json) → String
  | [] => ""
  | [(k, v)] => "\"" ++ k ++ "\": " ++ Json.dumps v
  | (k, v) :: fs => "\"" ++ k ++ "\": " ++ Json.dumps v ++ ", " ++ Json.dumpsFields fs

end

/-- `get_facts_collectors()`: the serialized descriptor sequence. -/
def get_facts_collectors : String := Json.dumps get_facts_collectors_json

/-- `execute_facts_collector(name, config_json)`: the serialized result. -/
def execute_facts_collector (env : PyEnv) (name : String) (config_json : String) : String :=
  Json.dumps (execute_facts_collector_json env name config_json)

/-- The six sibling extension stubs (lines 213–240) all return `"[]"`. -/
def get_task_definitions : String := "[]"

def get_template_extensions : String := "[]"

def get_log_sources : String := "[]"

def get_log_parsers : String := "[]"

def get_log_filters : String := "[]"

def get_log_outputs : String := "[]"

/-! ## Dict lemmas -/

theorem lookupKey_mem {d : List (String × Json)} {k : String} {v : Json}
    (h : lookupKey d k = some v) : (k, v) ∈ d := by
  induction d with
  | nil => simp [lookupKey] at h
  | cons p rest ih =>
    obtain ⟨k', v'⟩ := p
    by_cases hk : k' = k
    · subst hk
      simp [lookupKey] at h
      simp [h]
    · simp [lookupKey, hk] at h
      exact List.mem_cons_of_mem _ (ih h)

theorem lookupKey_setKey_self (d : List (String × Json)) (k : String) (v : Json) :
    lookupKey (setKey d k v) k = some v := by
  induction d with
  | nil => simp [setKey, lookupKey]
  | cons p rest ih =>
    obtain ⟨k1, v1⟩ := p
    by_cases hk : k1 = k
    · simp [setKey, hk, lookupKey]
    · simp [setKey, hk, lookupKey, ih]

theorem lookupKey_setKey_ne {k' k : String} (h : k' ≠ k) (d : List (String × Json))
    (v : Json) : lookupKey (setKey d k v) k' = lookupKey d k' := by
  induction d with
  | nil => simp [setKey, lookupKey, Ne.symm h]
  | cons p rest ih =>
    obtain ⟨k1, v1⟩ := p
    by_cases hk : k1 = k
    · subst hk
      simp [setKey, lookupKey, Ne.symm h]
    · by_cases hk' : k1 = k'
      · simp [setKey, hk, lookupKey, hk', h]
      · simp [setKey, hk, lookupKey, hk', ih]

theorem hasKey_setKey_self (d : List (String × Json)) (k : String) (v : Json) :
    hasKey (setKey d k v) k = true := by
  simp [hasKey, lookupKey_setKey_self]

theorem hasKey_setKey_of_hasKey {d : List (String × Json)} {k : String}
    (h : hasKey d k = true) (k' : String) (v' : Json) :
    hasKey (setKey d k' v') k = true := by
  by_cases he : k = k'
  · subst he
    exact hasKey_setKey_self d k v'
  · rw [hasKey, lookupKey_setKey_ne he]
    exact h

/-- Every key/value pair of the dict satisfies `P`. -/
def pairsSat (P : String → Json → Prop) (d : List (String × Json)) : Prop :=
  ∀ k v, (k, v) ∈ d → P k v

theorem pairsSat_nil (P : String → Json → Prop) : pairsSat P [] := by
  intro k v hv
  simp at hv

theorem pairsSat_setKey {P : String → Json → Prop} {d : List (String × Json)}
    (hd : pairsSat P d) {k : String} {v : Json} (hv : P k v) :
    pairsSat P (setKey d k v) := by
  induction d with
  | nil =>
    intro k' v' hmem
    simp [setKey] at hmem
    rw [hmem.1, hmem.2]
    exact hv
  | cons p rest ih =>
    obtain ⟨k1, v1⟩ := p
    have hrest : pairsSat P rest := fun a b hab => hd a b (List.mem_cons_of_mem _ hab)
    by_cases hk : k1 = k
    · intro k' v' hmem
      simp only [setKey, hk, if_pos rfl] at hmem
      rcases List.mem_cons.mp hmem with h1 | h2
      · rw [(Prod.mk.injEq _ _ _ _).mp h1 |>.1, (Prod.mk.injEq _ _ _ _).mp h1 |>.2]
        exact hv
      · exact hrest _ _ h2
    · intro k' v' hmem
      simp only [setKey, if_neg hk] at hmem
      rcases List.mem_cons.mp hmem with h1 | h2
      · rw [(Prod.mk.injEq _ _ _ _).mp h1 |>.1, (Prod.mk.injEq _ _ _ _).mp h1 |>.2]
        exact hd _ _ (List.mem_cons_self _ _)
      · exact ih hrest _ _ h2

theorem pairsSat_foldl_setKey {P : String → Json → Prop}
    (f : String × List IfAddr → Json) (c : String × List IfAddr → Bool)
    (l : List (String × List IfAddr)) {d : List (String × Json)}
    (hd : pairsSat P d) (hf : ∀ p, P p.1 (f p)) :
    pairsSat P (l.foldl (fun acc p => if c p then acc else setKey acc p.1 (f p)) d) := by
  induction l generalizing d with
  | nil => exact hd
  | cons p rest ih =>
    simp only [List.foldl_cons]
    by_cases hc : c p
    · simp only [hc, if_true]
      exact ih hd
    · simp only [hc, if_false, Bool.false_eq_true]
      exact ih (pairsSat_setKey hd (hf p))

theorem hasKey_foldl_setKey (f : String × List IfAddr → Json)
    (c : String × List IfAddr → Bool) (l : List (String × List IfAddr))
    {d : List (String × Json)} {k : String} (h : hasKey d k = true) :
    hasKey (l.foldl (fun acc p => if c p then acc else setKey acc p.1 (f p)) d) k = true := by
  induction l generalizing d with
  | nil => exact h
  | cons p rest ih =>
    simp only [List.foldl_cons]
    by_cases hc : c p
    · simp only [hc, if_true]
      exact ih h
    · simp only [hc, if_false, Bool.false_eq_true]
      exact ih (hasKey_setKey_of_hasKey h _ _)

/-! ## Closed forms of the collector bodies on object configurations -/

theorem sysinfo_obj_eq (env : PyEnv) (cf : List (String × Json)) :
    execute_system_info_collector_json env (.obj cf) =
      .ok (setKey
            (if truthy ((lookupKey cf "include_memory").getD (.bool true)) then
               setKey
                 (if truthy ((lookupKey cf "include_cpu").getD (.bool true)) then
                    setKey [] "cpu" (cpuFacts env)
                  else [])
                 "memory" (memFacts env)
             else
               (if truthy ((lookupKey cf "include_cpu").getD (.bool true)) then
                  setKey [] "cpu" (cpuFacts env)
                else []))
            "timestamp" (.str (env.utcnow_iso ++ "Z"))) := rfl

theorem network_obj_eq (env : PyEnv) (cf : List (String × Json)) :
    execute_network_interfaces_collector_json env (.obj cf) =
      .ok (fallbackStage env
            (psutilStage env (truthy ((lookupKey cf "include_loopback").getD (.bool false)))
              (hostnameStage env
                (truthy ((lookupKey cf "include_loopback").getD (.bool false))) []))) := rfl

/-- The two dispatcher error messages can never coincide (distinct first
characters). -/
theorem exec_failed_ne_unknown (e n : String) :
    "Collector execution failed: " ++ e ≠ "Unknown collector: " ++ n := by
  intro h
  have h2 := congrArg String.data h
  rw [String.data_append, String.data_append] at h2
  have hc : "Collector execution failed: ".data = 'C' :: "ollector execution failed: ".data := rfl
  have hu : "Unknown collector: ".data = 'U' :: "nknown collector: ".data := rfl
  rw [hc, hu, List.cons_append, List.cons_append] at h2
  injection h2 with h3 _
  exact absurd h3 (by decide)

/-! ## Concrete environments used by witnesses and counterexamples -/

/-- `psutil` missing, hostname resolvable, throwaway connection fails. -/
def envNoPsutil : PyEnv where
  has_psutil := false
  machine := "x86_64"
  python_version := "3.11.0"
  cpu_count_logical := .error "cpu unavailable"
  cpu_count_physical := .error "cpu unavailable"
  cpu_percent := .error "cpu unavailable"
  virtual_memory := .error "memory unavailable"
  utcnow_iso := "2026-10-12T00:00:00"
  has_socket_fns := true
  gethostname := .ok "node1"
  getaddrinfo := .ok ["127.0.0.1", "10.0.0.5"]
  psutil_net := .error "psutil unavailable"
  primary_ip := none

/-! ## Claims about the dispatcher -/

/-- C1: for every collector name and configuration string the dispatcher
returns a document (never a raised fault); a configuration that fails to
parse yields an `ErrorResult` whose message reports collector execution
failure, and so does any fault raised inside either collector body. -/
theorem execute_collector_never_raises (env : PyEnv) (name config_json : String) :
    (∃ fs, execute_facts_collector_json env name config_json = .obj fs) ∧
    (∀ e, json_loads config_json = .error e →
      execute_facts_collector_json env name config_json =
        errorDoc ("Collector execution failed: " ++ e)) ∧
    (∀ config e, json_loads config_json = .ok config →
      name = "python_system_info" →
      execute_system_info_collector_json env config = .error e →
      execute_facts_collector_json env name config_json =
        errorDoc ("Collector execution failed: " ++ e)) ∧
    (∀ config e, json_loads config_json = .ok config →
      name = "python_network_interfaces" →
      execute_network_interfaces_collector_json env config = .error e →
      execute_facts_collector_json env name config_json =
        errorDoc ("Collector execution failed: " ++ e)) := by
  refine ⟨?_, ?_, ?_, ?_⟩
  · unfold execute_facts_collector_json
    cases json_loads config_json with
    | error e => exact ⟨_, rfl⟩
    | ok config =>
      dsimp only
      by_cases h1 : name = "python_system_info"
      · rw [if_pos h1]
        cases execute_system_info_collector_json env config with
        | error e => exact ⟨_, rfl⟩
        | ok fs => exact ⟨_, rfl⟩
      · rw [if_neg h1]
        by_cases h2 : name = "python_network_interfaces"
        · rw [if_pos h2]
          cases execute_network_interfaces_collector_json env config with
          | error e => exact ⟨_, rfl⟩
          | ok fs => exact ⟨_, rfl⟩
        · rw [if_neg h2]
          exact ⟨_, rfl⟩
  · intro e he
    simp only [execute_facts_collector_json, he]
  · intro config e hok h1 hcol
    subst h1
    simp [execute_facts_collector_json, hok, hcol]
  · intro config e hok h2 hcol
    subst h2
    simp [execute_facts_collector_json, hok, hcol]

theorem execute_collector_never_raises_witness :
    json_loads "not valid json" = .error "Expecting value" ∧
    execute_facts_collector_json envNoPsutil "python_system_info" "not valid json" =
      errorDoc ("Collector execution failed: " ++ "Expecting value") :=
  ⟨by decide,
   (execute_collector_never_raises envNoPsutil "python_system_info" "not valid json").2.1
     "Expecting value" (by decide)⟩

/-- C2: for every name outside the enumeration and every configuration that
parses, the dispatcher returns (not raises) an `ErrorResult` whose message is
exactly `"Unknown collector: <name>"`. -/
theorem unknown_collector_message (env : PyEnv) (name config_json : String)
    (config : Json) (hparse : json_loads config_json = .ok config)
    (h1 : name ≠ "python_system_info") (h2 : name ≠ "python_network_interfaces") :
    execute_facts_collector_json env name config_json =
      .obj [("error", .str ("Unknown collector: " ++ name))] := by
  simp only [execute_facts_collector_json, hparse, if_neg h1, if_neg h2]
  rfl

theorem unknown_collector_message_witness :
    (json_loads "\x7b\x7d" = .ok (.obj []) ∧ "bogus" ≠ "python_system_info" ∧
      "bogus" ≠ "python_network_interfaces") ∧
    execute_facts_collector_json envNoPsutil "bogus" "\x7b\x7d" =
      .obj [("error", .str ("Unknown collector: " ++ "bogus"))] :=
  ⟨⟨by decide, by decide, by decide⟩,
   unknown_collector_message envNoPsutil "bogus" "\x7b\x7d" (.obj [])
     (by decide) (by decide) (by decide)⟩

/-- C9: the configuration is parsed before the name is inspected — an unknown
name with an unparseable configuration reports the parse failure (message
beginning `"Collector execution failed: "`), never the unknown-name message,
and the unknown-name message can only arise once parsing has succeeded. -/
theorem parse_precedes_dispatch (env : PyEnv) (name config_json : String) :
    (∀ e, json_loads config_json = .error e →
      name ≠ "python_system_info" → name ≠ "python_network_interfaces" →
      execute_facts_collector_json env name config_json =
          errorDoc ("Collector execution failed: " ++ e) ∧
        execute_facts_collector_json env name config_json ≠
          errorDoc ("Unknown collector: " ++ name)) ∧
    (execute_facts_collector_json env name config_json =
        errorDoc ("Unknown collector: " ++ name) →
      ∃ config, json_loads config_json = .ok config) := by
  constructor
  · intro e he _ _
    have hr : execute_facts_collector_json env name config_json =
        errorDoc ("Collector execution failed: " ++ e) := by
      simp only [execute_facts_collector_json, he]
    refine ⟨hr, ?_⟩
    rw [hr]
    intro hbad
    simp only [errorDoc, Json.obj.injEq, List.cons.injEq, Prod.mk.injEq,
      Json.str.injEq] at hbad
    exact exec_failed_ne_unknown e name hbad.1.2
  · intro hu
    cases hp : json_loads config_json with
    | error e =>
      have hr : execute_facts_collector_json env name config_json =
          errorDoc ("Collector execution failed: " ++ e) := by
        simp only [execute_facts_collector_json, hp]
      rw [hr] at hu
      simp only [errorDoc, Json.obj.injEq, List.cons.injEq, Prod.mk.injEq,
        Json.str.injEq] at hu
      exact absurd hu.1.2 (exec_failed_ne_unknown e name)
    | ok config => exact ⟨config, rfl⟩

theorem parse_precedes_dispatch_witness :
    (json_loads "not valid json" = .error "Expecting value" ∧
      "bogus" ≠ "python_system_info" ∧ "bogus" ≠ "python_network_interfaces") ∧
    execute_facts_collector_json envNoPsutil "bogus" "not valid json" =
        errorDoc ("Collector execution failed: " ++ "Expecting value") ∧
      execute_facts_collector_json envNoPsutil "bogus" "not valid json" ≠
        errorDoc ("Unknown collector: " ++ "bogus") :=
  ⟨⟨by decide, by decide, by decide⟩,
   (parse_precedes_dispatch envNoPsutil "bogus" "not valid json").1
     "Expecting value" (by decide) (by decide) (by decide)⟩

/-! ## Claims about the system-info collector -/

/-- C3: with `{include_cpu: true, include_memory: false}` the system-info
collector produces a document with keys `cpu` and `timestamp` and without key
`memory`, whatever the state of `psutil` and the underlying metrics. -/
theorem system_info_cpu_only_keys (env : PyEnv) :
    ∃ fs, execute_system_info_collector_json env
        (.obj [("include_cpu", .bool true), ("include_memory", .bool false)]) = .ok fs ∧
      hasKey fs "cpu" = true ∧ hasKey fs "timestamp" = true ∧ hasKey fs "memory" = false := by
  refine ⟨_, sysinfo_obj_eq env _, ?_, ?_, ?_⟩ <;>
    simp [lookupKey, truthy, setKey, hasKey]

/-- C4: with the empty configuration the schema defaults apply
(`include_cpu = true`, `include_memory = true`) and the document carries both
`cpu` and `memory` (and the timestamp), whatever the state of `psutil`. -/
theorem system_info_defaults_keys (env : PyEnv) :
    ∃ fs, execute_system_info_collector_json env (.obj []) = .ok fs ∧
      hasKey fs "cpu" = true ∧ hasKey fs "memory" = true ∧ hasKey fs "timestamp" = true := by
  refine ⟨_, sysinfo_obj_eq env _, ?_, ?_, ?_⟩ <;>
    simp [lookupKey, truthy, setKey, hasKey]

/-- The facts document `envNoPsutil` produces for the default configuration. -/
def fsNoPsutil : List (String × Json) :=
  [("cpu", .obj [("architecture", .str "x86_64"),
                 ("cores", .str "psutil not available"),
                 ("python_version", .str "3.11.0")]),
   ("memory", .obj [("error", .str "psutil not available for memory collection")]),
   ("timestamp", .str ("2026-10-12T00:00:00" ++ "Z"))]

/-- C5 counterexample: when `psutil` is unavailable the `cpu` category is
*not* replaced by a sub-object carrying an `error` field — it carries a
degraded info object with no `error` key (unlike `memory`, which does get an
`error` field). -/
theorem cpu_unavailable_no_error_field :
    execute_system_info_collector_json envNoPsutil (.obj []) = .ok fsNoPsutil ∧
    lookupKey fsNoPsutil "cpu" =
      some (.obj [("architecture", .str "x86_64"),
                  ("cores", .str "psutil not available"),
                  ("python_version", .str "3.11.0")]) ∧
    hasKey [("architecture", .str "x86_64"),
            ("cores", .str "psutil not available"),
            ("python_version", .str "3.11.0")] "error" = false :=
  ⟨rfl, rfl, rfl⟩

/-- C5 as amended: every requested category's key appears, and the timestamp
always appears; when the metrics *call* fails (raises) with `psutil`
available, the category is replaced by a sub-object carrying the explanatory
`error` field — one category's failure never blocks the other or the
timestamp.  (When `psutil` is merely absent, `memory` carries an `error`
field but `cpu` carries a degraded info object without one.) -/
theorem system_info_partial_results (env : PyEnv) (cf fs : List (String × Json))
    (h : execute_system_info_collector_json env (.obj cf) = .ok fs) :
    hasKey fs "timestamp" = true ∧
    (truthy ((lookupKey cf "include_cpu").getD (.bool true)) = true →
      hasKey fs "cpu" = true) ∧
    (truthy ((lookupKey cf "include_memory").getD (.bool true)) = true →
      hasKey fs "memory" = true) ∧
    (∀ e, truthy ((lookupKey cf "include_cpu").getD (.bool true)) = true →
      env.has_psutil = true → cpuInfoResult env = .error e →
      lookupKey fs "cpu" =
        some (.obj [("error", .str ("Failed to collect CPU info: " ++ e))])) ∧
    (∀ e, truthy ((lookupKey cf "include_memory").getD (.bool true)) = true →
      env.has_psutil = true → memInfoResult env = .error e →
      lookupKey fs "memory" =
        some (.obj [("error", .str ("Failed to collect memory info: " ++ e))])) := by
  have hfs := sysinfo_obj_eq env cf
  rw [h] at hfs
  have hfs2 := Except.ok.inj hfs
  subst hfs2
  set ic := truthy ((lookupKey cf "include_cpu").getD (.bool true)) with hic
  set im := truthy ((lookupKey cf "include_memory").getD (.bool true)) with him
  refine ⟨hasKey_setKey_self _ _ _, ?_, ?_, ?_, ?_⟩
  · intro hc
    rw [hc]
    apply hasKey_setKey_of_hasKey
    by_cases him2 : im = true
    · rw [if_pos him2]
      apply hasKey_setKey_of_hasKey
      simp [setKey, hasKey, lookupKey]
    · rw [if_neg him2]
      simp [setKey, hasKey, lookupKey]
  · intro hm
    rw [hm]
    apply hasKey_setKey_of_hasKey
    rw [if_pos rfl]
    exact hasKey_setKey_self _ _ _
  · intro e hc hps herr
    rw [hc]
    rw [lookupKey_setKey_ne (by decide)]
    have hcpu : cpuFacts env = .obj [("error", .str ("Failed to collect CPU info: " ++ e))] := by
      simp [cpuFacts, hps, herr]
    by_cases him2 : im = true
    · rw [if_pos him2]
      rw [lookupKey_setKey_ne (by decide), if_pos rfl, lookupKey_setKey_self, hcpu]
    · rw [if_neg him2]
      rw [if_pos rfl, lookupKey_setKey_self, hcpu]
  · intro e hm hps herr
    rw [hm]
    rw [lookupKey_setKey_ne (by decide), if_pos rfl, lookupKey_setKey_self]
    simp [memFacts, hps, herr]

theorem system_info_partial_results_witness :
    execute_system_info_collector_json envNoPsutil (.obj []) = .ok fsNoPsutil ∧
    (hasKey fsNoPsutil "timestamp" = true ∧
     (truthy ((lookupKey ([] : List (String × Json)) "include_cpu").getD (.bool true)) = true →
       hasKey fsNoPsutil "cpu" = true) ∧
     (truthy ((lookupKey ([] : List (String × Json)) "include_memory").getD (.bool true)) = true →
       hasKey fsNoPsutil "memory" = true) ∧
     (∀ e, truthy ((lookupKey ([] : List (String × Json)) "include_cpu").getD (.bool true)) = true →
       envNoPsutil.has_psutil = true → cpuInfoResult envNoPsutil = .error e →
       lookupKey fsNoPsutil "cpu" =
         some (.obj [("error", .str ("Failed to collect CPU info: " ++ e))])) ∧
     (∀ e, truthy ((lookupKey ([] : List (String × Json)) "include_memory").getD (.bool true)) = true →
       envNoPsutil.has_psutil = true → memInfoResult envNoPsutil = .error e →
       lookupKey fsNoPsutil "memory" =
         some (.obj [("error", .str ("Failed to collect memory info: " ++ e))]))) :=
  ⟨rfl, system_info_partial_results envNoPsutil [] fsNoPsutil rfl⟩

/-! ## Network-collector lemmas -/

/-- An interface entry is always an object. -/
theorem buildInterfaceEntry_isObj (s : List (String × IfStats)) (i : String)
    (a : List IfAddr) : ∃ o, buildInterfaceEntry s i a = .obj o := by
  unfold buildInterfaceEntry
  cases lookupStats s i with
  | none => exact ⟨_, rfl⟩
  | some st => exact ⟨_, rfl⟩

/-- The synthetic loopback entry C6 postulates. -/
def synthLoopbackEntry : Json :=
  .obj [("addresses", .arr [.str "127.0.0.1"]), ("mac", .null), ("status", .str "up")]

/-- No interface entry ever equals the synthetic loopback entry: without
stats the status is `"unknown"`, with stats the entry has a fourth (`mtu`)
field. -/
theorem buildInterfaceEntry_ne_synth (s : List (String × IfStats)) (i : String)
    (a : List IfAddr) : buildInterfaceEntry s i a ≠ synthLoopbackEntry := by
  unfold buildInterfaceEntry synthLoopbackEntry
  cases lookupStats s i with
  | none => simp
  | some st => simp

theorem pairsSat_hostnameStage {P : String → Json → Prop} (env : PyEnv) (il : Bool)
    {d : List (String × Json)} (hd : pairsSat P d)
    (hh : ∀ s, P "hostname" (.str s))
    (hips0 : P "hostname_ips" (.arr []))
    (hips : ∀ addrs, env.getaddrinfo = .ok addrs →
      P "hostname_ips" (.arr (((addrs.filter (fun ip =>
        (!(ip == "127.0.0.1") && !(ip == "::1")) || il)).dedup).map Json.str))) :
    pairsSat P (hostnameStage env il d) := by
  unfold hostnameStage
  by_cases hs : env.has_socket_fns
  · rw [if_pos hs]
    cases hg : env.gethostname with
    | error e => exact pairsSat_setKey hd (hh _)
    | ok hostname =>
      cases ha : env.getaddrinfo with
      | error e => exact pairsSat_setKey (pairsSat_setKey hd (hh _)) hips0
      | ok addrs => exact pairsSat_setKey (pairsSat_setKey hd (hh _)) (hips addrs ha)
  · rw [if_neg hs]
    exact hd

theorem pairsSat_psutilStage {P : String → Json → Prop} (env : PyEnv) (il : Bool)
    {d : List (String × Json)} (hd : pairsSat P d)
    (herr : ∀ s, P "psutil_error" (.str s))
    (hent : ∀ st i a, P i (buildInterfaceEntry st i a)) :
    pairsSat P (psutilStage env il d) := by
  unfold psutilStage
  by_cases hp : env.has_psutil
  · rw [if_pos hp]
    cases env.psutil_net with
    | error e => exact pairsSat_setKey hd (herr _)
    | ok net => exact pairsSat_foldl_setKey _ _ _ hd (fun p => hent net.2 p.1 p.2)
  · rw [if_neg hp]
    exact hd

theorem pairsSat_fallbackStage {P : String → Json → Prop} (env : PyEnv)
    {d : List (String × Json)} (hd : pairsSat P d)
    (hprim : ∀ ip, P "primary_interface" (.obj
      [("addresses", .arr [.str ip]),
       ("mac", .str "unknown (psutil not available)"),
       ("status", .str "up")]))
    (hinfo : P "network_info" (.str "Limited network info available (psutil not installed)")) :
    pairsSat P (fallbackStage env d) := by
  unfold fallbackStage
  by_cases hc : (!env.has_psutil || d.length ≤ 2 : Bool)
  · rw [if_pos hc]
    cases env.primary_ip with
    | some ip => exact pairsSat_setKey hd (hprim ip)
    | none => exact pairsSat_setKey hd hinfo
  · rw [if_neg hc]
    exact hd

theorem hasKey_psutilStage_of {env : PyEnv} {il : Bool} {d : List (String × Json)}
    {k : String} (h : hasKey d k = true) : hasKey (psutilStage env il d) k = true := by
  unfold psutilStage
  by_cases hp : env.has_psutil
  · rw [if_pos hp]
    cases env.psutil_net with
    | error e => exact hasKey_setKey_of_hasKey h _ _
    | ok net => exact hasKey_foldl_setKey _ _ _ h
  · rw [if_neg hp]
    exact h

theorem hasKey_fallbackStage_of {env : PyEnv} {d : List (String × Json)}
    {k : String} (h : hasKey d k = true) : hasKey (fallbackStage env d) k = true := by
  unfold fallbackStage
  by_cases hc : (!env.has_psutil || d.length ≤ 2 : Bool)
  · rw [if_pos hc]
    cases env.primary_ip with
    | some ip => exact hasKey_setKey_of_hasKey h _ _
    | none => exact hasKey_setKey_of_hasKey h _ _
  · rw [if_neg hc]
    exact h

theorem hasKey_hostnameStage_hostname {env : PyEnv} (il : Bool)
    (d : List (String × Json)) (hs : env.has_socket_fns = true) :
    hasKey (hostnameStage env il d) "hostname" = true := by
  unfold hostnameStage
  rw [hs, if_pos rfl]
  cases env.gethostname with
  | error e => exact hasKey_setKey_self _ _ _
  | ok hostname =>
    cases env.getaddrinfo with
    | error e => exact hasKey_setKey_of_hasKey (hasKey_setKey_self _ _ _) _ _
    | ok addrs => exact hasKey_setKey_of_hasKey (hasKey_setKey_self _ _ _) _ _

theorem hasKey_hostnameStage_ips {env : PyEnv} (il : Bool)
    (d : List (String × Json)) (hs : env.has_socket_fns = true) (hn : String)
    (hok : env.gethostname = .ok hn) :
    hasKey (hostnameStage env il d) "hostname_ips" = true := by
  unfold hostnameStage
  rw [hs, if_pos rfl, hok]
  cases env.getaddrinfo with
  | error e => exact hasKey_setKey_self _ _ _
  | ok addrs => exact hasKey_setKey_self _ _ _

/-- When `psutil` is unavailable and the throwaway connection fails, the
fallback records the limited-information note. -/
theorem fallbackStage_network_info {env : PyEnv} (d : List (String × Json))
    (hp : env.has_psutil = false) (hip : env.primary_ip = none) :
    lookupKey (fallbackStage env d) "network_info" =
      some (.str "Limited network info available (psutil not installed)") := by
  unfold fallbackStage
  rw [hp, hip]
  simp [lookupKey_setKey_self]

/-! ## Claims about the network-interfaces collector -/

/-- Like `envNoPsutil`, but the throwaway connection reports `127.0.0.1` as
the local endpoint. -/
def envLoopPrimary : PyEnv := { envNoPsutil with primary_ip := some "127.0.0.1" }

/-- What `envLoopPrimary` produces with `include_loopback` unset (false). -/
def fsLoopPrimary : List (String × Json) :=
  [("hostname", .str "node1"),
   ("hostname_ips", .arr [.str "10.0.0.5"]),
   ("primary_interface", .obj
     [("addresses", .arr [.str "127.0.0.1"]),
      ("mac", .str "unknown (psutil not available)"),
      ("status", .str "up")])]

/-- What `envNoPsutil` produces with `include_loopback: true`. -/
def fsLoopTrue : List (String × Json) :=
  [("hostname", .str "node1"),
   ("hostname_ips", .arr [.str "127.0.0.1", .str "10.0.0.5"]),
   ("network_info", .str "Limited network info available (psutil not installed)")]

/-- C6 counterexample, both halves of the claim: (a) with
`{include_loopback: false}` the primary-interface fallback still produces an
entry whose address list is exactly `["127.0.0.1"]`; (b) with
`{include_loopback: true}` and no real loopback data obtainable, the result
contains *no* synthesized loopback entry (address `127.0.0.1`, no MAC,
status `"up"`) — the code never synthesizes one. -/
theorem loopback_claim_counterexample :
    (execute_network_interfaces_collector_json envLoopPrimary (.obj []) = .ok fsLoopPrimary ∧
     lookupKey fsLoopPrimary "primary_interface" =
       some (.obj [("addresses", .arr [.str "127.0.0.1"]),
                   ("mac", .str "unknown (psutil not available)"),
                   ("status", .str "up")])) ∧
    (execute_network_interfaces_collector_json envNoPsutil
        (.obj [("include_loopback", .bool true)]) = .ok fsLoopTrue ∧
     fsLoopTrue.all (fun p => !(Json.beq p.2 synthLoopbackEntry)) = true) :=
  ⟨⟨rfl, rfl⟩, ⟨rfl, rfl⟩⟩

/-- C6 as amended: with `include_loopback` false the loopback addresses
`127.0.0.1`/`::1` are filtered out of `hostname_ips` — but the
primary-interface fallback can still produce an entry whose address list is
exactly `["127.0.0.1"]` — and no configuration ever makes the collector add a
synthesized loopback entry (address `127.0.0.1`, no MAC, status `"up"`). -/
theorem loopback_filtering (env : PyEnv) (cf fs : List (String × Json))
    (h : execute_network_interfaces_collector_json env (.obj cf) = .ok fs) :
    (∀ k v, (k, v) ∈ fs → v ≠ synthLoopbackEntry) ∧
    (truthy ((lookupKey cf "include_loopback").getD (.bool false)) = false →
      ∀ l, lookupKey fs "hostname_ips" = some (.arr l) → Json.str "127.0.0.1" ∉ l) := by
  have hfs := network_obj_eq env cf
  rw [h] at hfs
  have hfs2 := Except.ok.inj hfs
  subst hfs2
  set il := truthy ((lookupKey cf "include_loopback").getD (.bool false)) with hil
  constructor
  · have hsat : pairsSat (fun _ v => v ≠ synthLoopbackEntry)
        (fallbackStage env (psutilStage env il (hostnameStage env il []))) := by
      apply pairsSat_fallbackStage
      · apply pairsSat_psutilStage
        · apply pairsSat_hostnameStage
          · exact pairsSat_nil _
          · intro s
            simp [synthLoopbackEntry]
          · simp [synthLoopbackEntry]
          · intro addrs _
            simp [synthLoopbackEntry]
        · intro s
          simp [synthLoopbackEntry]
        · intro st i a
          exact buildInterfaceEntry_ne_synth st i a
      · intro ip
        simp [synthLoopbackEntry]
      · simp [synthLoopbackEntry]
    exact fun k v hm => hsat k v hm
  · intro hilf l hlook
    have hsat : pairsSat
        (fun k v => k = "hostname_ips" → ∀ l2, v = .arr l2 → Json.str "127.0.0.1" ∉ l2)
        (fallbackStage env (psutilStage env il (hostnameStage env il []))) := by
      apply pairsSat_fallbackStage
      · apply pairsSat_psutilStage
        · apply pairsSat_hostnameStage
          · exact pairsSat_nil _
          · intro s hk
            exact absurd hk (by decide)
          · intro _ l2 hv
            injection hv with hv2
            rw [← hv2]
            simp
          · intro addrs ha _ l2 hv
            injection hv with hv2
            rw [← hv2]
            intro hmem
            obtain ⟨ip, hip, hipeq⟩ := List.mem_map.mp hmem
            have hipv : ip = "127.0.0.1" := Json.str.inj hipeq
            rw [hipv] at hip
            have hf := (List.mem_filter.mp (List.mem_dedup.mp hip)).2
            rw [hilf] at hf
            simp at hf
        · intro s hk l2 hv
          exact absurd hv (by simp)
        · intro st i a hk l2 hv
          obtain ⟨o, ho⟩ := buildInterfaceEntry_isObj st i a
          rw [ho] at hv
          exact absurd hv (by simp)
      · intro ip hk
        exact absurd hk (by decide)
      · intro hk
        exact absurd hk (by decide)
    exact hsat _ _ (lookupKey_mem hlook) rfl l rfl

theorem loopback_filtering_witness :
    execute_network_interfaces_collector_json envLoopPrimary (.obj []) = .ok fsLoopPrimary ∧
    ((∀ k v, (k, v) ∈ fsLoopPrimary → v ≠ synthLoopbackEntry) ∧
     (truthy ((lookupKey ([] : List (String × Json)) "include_loopback").getD (.bool false)) = false →
       ∀ l, lookupKey fsLoopPrimary "hostname_ips" = some (.arr l) →
         Json.str "127.0.0.1" ∉ l)) :=
  ⟨rfl, loopback_filtering envLoopPrimary [] fsLoopPrimary rfl⟩

/-- The network collector as C7's spec sentence describes it (definition
follows the spec's words, for comparison with the code): an ordered tiered
fallback in which each tier runs only when every earlier tier failed —
(1) full per-interface enumeration, (2) hostname resolution, (3) a single
primary outbound address, (4) the limited-information document. -/
def specTieredNetworkCollector (env : PyEnv) (il : Bool) : List (String × Json) :=
  match (if env.has_psutil then env.psutil_net else .error "psutil unavailable") with
  | .ok net =>
    net.1.foldl (fun acc p =>
      if !il && (pyStartsWith p.1 "lo" || pyStartsWith p.1 "Loopback") then acc
      else setKey acc p.1 (buildInterfaceEntry net.2 p.1 p.2)) []
  | .error _ =>
    match (if env.has_socket_fns then env.gethostname else .error "unavailable") with
    | .ok hostname =>
      let ips := match env.getaddrinfo with
        | .ok addrs => (addrs.filter (fun ip =>
            (!(ip == "127.0.0.1") && !(ip == "::1")) || il)).dedup
        | .error _ => []
      [("hostname", .str hostname), ("hostname_ips", .arr (ips.map Json.str))]
    | .error _ =>
      match env.primary_ip with
      | some ip =>
        [("primary_interface", .obj
          [("addresses", .arr [.str ip]),
           ("mac", .str "unknown (psutil not available)"),
           ("status", .str "up")])]
      | none =>
        [("network_info", .str "Limited network info available (psutil not installed)")]

/-- An environment where every data source works: `psutil` enumerates one
interface and the hostname resolves. -/
def envRich : PyEnv where
  has_psutil := true
  machine := "x86_64"
  python_version := "3.11.0"
  cpu_count_logical := .ok 8
  cpu_count_physical := .ok 4
  cpu_percent := .ok 12
  virtual_memory := .ok ⟨17179869184, 8589934592, 8589934592, 50⟩
  utcnow_iso := "2026-10-12T00:00:00"
  has_socket_fns := true
  gethostname := .ok "node1"
  getaddrinfo := .ok ["10.0.0.5"]
  psutil_net := .ok ([("eth0", [⟨.af_inet, "10.0.0.5"⟩])], [("eth0", ⟨true, 1500⟩)])
  primary_ip := some "10.0.0.5"

/-- What `envRich` produces with the default configuration. -/
def fsRich : List (String × Json) :=
  [("hostname", .str "node1"),
   ("hostname_ips", .arr [.str "10.0.0.5"]),
   ("eth0", .obj [("addresses", .arr [.str "10.0.0.5"]), ("mac", .null),
                  ("status", .str "up"), ("mtu", .num 1500)])]

/-- C7 counterexample: when tier 1 (per-interface enumeration) fully
succeeds, the code still performs hostname resolution and merges its results
— the result carries a `hostname` key — whereas the tiered-fallback behaviour
the claim describes would have produced the enumeration alone. -/
theorem tiered_fallback_counterexample :
    execute_network_interfaces_collector_json envRich (.obj []) = .ok fsRich ∧
    specTieredNetworkCollector envRich false =
      [("eth0", .obj [("addresses", .arr [.str "10.0.0.5"]), ("mac", .null),
                      ("status", .str "up"), ("mtu", .num 1500)])] ∧
    fsRich ≠ [("eth0", .obj [("addresses", .arr [.str "10.0.0.5"]), ("mac", .null),
                             ("status", .str "up"), ("mtu", .num 1500)])] ∧
    hasKey fsRich "hostname" = true :=
  ⟨by decide, by decide, by decide, rfl⟩

/-- C7 as amended: the data sources are not exclusive fallback tiers — the
collector always attempts hostname resolution first (so `hostname` is present
whenever the socket functions exist), then merges the `psutil` enumeration
when available; the throwaway-connection probe runs when `psutil` is missing
or little was gathered; when `psutil` is missing and the probe also fails the
result still carries the limited-information `network_info` note; and for any
object configuration the collector returns a document, never the catch-all
`ErrorResult`. -/
theorem network_stage_structure (env : PyEnv) (cf : List (String × Json)) :
    ∃ fs, execute_network_interfaces_collector_json env (.obj cf) = .ok fs ∧
      (env.has_socket_fns = true → hasKey fs "hostname" = true) ∧
      (env.has_psutil = false → env.primary_ip = none →
        lookupKey fs "network_info" =
          some (.str "Limited network info available (psutil not installed)")) := by
  refine ⟨_, network_obj_eq env cf, ?_, ?_⟩
  · intro hs
    exact hasKey_fallbackStage_of (hasKey_psutilStage_of (hasKey_hostnameStage_hostname _ _ hs))
  · intro hp hip
    exact fallbackStage_network_info _ hp hip

theorem network_stage_structure_witness :
    ∃ fs, execute_network_interfaces_collector_json envNoPsutil (.obj []) = .ok fs ∧
      (envNoPsutil.has_socket_fns = true → hasKey fs "hostname" = true) ∧
      (envNoPsutil.has_psutil = false → envNoPsutil.primary_ip = none →
        lookupKey fs "network_info" =
          some (.str "Limited network info available (psutil not installed)")) :=
  network_stage_structure envNoPsutil []

/-- An environment whose `psutil` enumeration reports an interface literally
named `hostname`, shadowing the hostname string in the result dict. -/
def envShadow : PyEnv where
  has_psutil := true
  machine := "x86_64"
  python_version := "3.11.0"
  cpu_count_logical := .ok 8
  cpu_count_physical := .ok 4
  cpu_percent := .ok 12
  virtual_memory := .ok ⟨17179869184, 8589934592, 8589934592, 50⟩
  utcnow_iso := "2026-10-12T00:00:00"
  has_socket_fns := true
  gethostname := .ok "node1"
  getaddrinfo := .ok ["10.0.0.5"]
  psutil_net := .ok ([("hostname", [])], [])
  primary_ip := some "10.0.0.9"

/-- What `envShadow` produces with the default configuration. -/
def fsShadow : List (String × Json) :=
  [("hostname", .obj [("addresses", .arr []), ("mac", .null), ("status", .str "unknown")]),
   ("hostname_ips", .arr [.str "10.0.0.5"]),
   ("primary_interface", .obj
     [("addresses", .arr [.str "10.0.0.9"]),
      ("mac", .str "unknown (psutil not available)"),
      ("status", .str "up")])]

/-- Whether an optional JSON value is a string. -/
def isStrValue : Option Json → Bool
  | some (.str _) => true
  | _ => false

/-- C10 counterexample: hostname resolution succeeds, yet the `hostname` key
does not hold a string — a per-interface entry of the same name overwrote it,
because interface entries and the hostname metadata share one namespace. -/
theorem hostname_keys_counterexample :
    envShadow.gethostname = .ok "node1" ∧
    execute_network_interfaces_collector_json envShadow (.obj []) = .ok fsShadow ∧
    isStrValue (lookupKey fsShadow "hostname") = false :=
  ⟨rfl, by decide, rfl⟩

/-- C10 as amended: whenever the socket functions exist and hostname
resolution succeeds, the result carries both top-level keys `hostname` and
`hostname_ips` alongside any per-interface entries (their values are the
hostname string and address list unless a same-named interface entry
overwrites them). -/
theorem hostname_keys_present (env : PyEnv) (cf fs : List (String × Json)) (hn : String)
    (h : execute_network_interfaces_collector_json env (.obj cf) = .ok fs)
    (hs : env.has_socket_fns = true) (hok : env.gethostname = .ok hn) :
    hasKey fs "hostname" = true ∧ hasKey fs "hostname_ips" = true := by
  have hfs := network_obj_eq env cf
  rw [h] at hfs
  have hfs2 := Except.ok.inj hfs
  subst hfs2
  constructor
  · exact hasKey_fallbackStage_of (hasKey_psutilStage_of (hasKey_hostnameStage_hostname _ _ hs))
  · exact hasKey_fallbackStage_of (hasKey_psutilStage_of (hasKey_hostnameStage_ips _ _ hs hn hok))

theorem hostname_keys_present_witness :
    execute_network_interfaces_collector_json envShadow (.obj []) = .ok fsShadow ∧
    envShadow.has_socket_fns = true ∧ envShadow.gethostname = .ok "node1" ∧
    (hasKey fsShadow "hostname" = true ∧ hasKey fsShadow "hostname_ips" = true) :=
  ⟨by decide, rfl, rfl,
   hostname_keys_present envShadow [] fsShadow "node1" (by decide) rfl rfl⟩

/-! ## The enumeration/dispatch invariant -/

/-- C8: every name the enumeration call returns is dispatchable — executing
it with the empty configuration yields a document (never a raised fault) and
never the unknown-collector `ErrorResult`. -/
theorem enumeration_dispatchable (env : PyEnv) (name : String)
    (hmem : name ∈ collectorNames) :
    (∃ fs, execute_facts_collector_json env name "\x7b\x7d" = .obj fs) ∧
    execute_facts_collector_json env name "\x7b\x7d" ≠
      errorDoc ("Unknown collector: " ++ name) := by
  have hnames : collectorNames = ["python_system_info", "python_network_interfaces"] := rfl
  rw [hnames] at hmem
  simp only [List.mem_cons, List.mem_singleton, List.not_mem_nil, or_false] at hmem
  rcases hmem with h | h
  · subst h
    have hexec : execute_facts_collector_json env "python_system_info" "\x7b\x7d" =
        .obj [("cpu", cpuFacts env), ("memory", memFacts env),
              ("timestamp", .str (env.utcnow_iso ++ "Z"))] := rfl
    refine ⟨⟨_, hexec⟩, ?_⟩
    rw [hexec]
    intro hbad
    simp only [errorDoc] at hbad
    have hF := Json.obj.inj hbad
    simp at hF
  · subst h
    have hexec : execute_facts_collector_json env "python_network_interfaces" "\x7b\x7d" =
        .obj (fallbackStage env (psutilStage env false (hostnameStage env false []))) := rfl
    refine ⟨⟨_, hexec⟩, ?_⟩
    rw [hexec]
    have hsat : pairsSat (fun k v => k = "error" → ∃ o, v = .obj o)
        (fallbackStage env (psutilStage env false (hostnameStage env false []))) := by
      apply pairsSat_fallbackStage
      · apply pairsSat_psutilStage
        · apply pairsSat_hostnameStage
          · exact pairsSat_nil _
          · intro s hk
            exact absurd hk (by decide)
          · intro hk
            exact absurd hk (by decide)
          · intro addrs _ hk
            exact absurd hk (by decide)
        · intro s hk
          exact absurd hk (by decide)
        · intro st i a _
          exact buildInterfaceEntry_isObj st i a
      · intro ip hk
        exact absurd hk (by decide)
      · intro hk
        exact absurd hk (by decide)
    intro hbad
    simp only [errorDoc] at hbad
    have hF := Json.obj.inj hbad
    have hm : ("error",
        Json.str ("Unknown collector: " ++ "python_network_interfaces")) ∈
        fallbackStage env (psutilStage env false (hostnameStage env false [])) := by
      rw [hF]
      simp
    obtain ⟨o, ho⟩ := hsat _ _ hm rfl
    exact absurd ho (by simp)

theorem enumeration_dispatchable_witness :
    ("python_system_info" ∈ collectorNames ∧
      "python_network_interfaces" ∈ collectorNames) ∧
    execute_facts_collector_json envNoPsutil "python_system_info" "\x7b\x7d" ≠
      errorDoc ("Unknown collector: " ++ "python_system_info") :=
  ⟨⟨by decide, by decide⟩,
   (enumeration_dispatchable envNoPsutil "python_system_info" (by decide)).2⟩

